import Mathlib

set_option maxHeartbeats 1000000

/-! Verification of the trading-chat pipeline of this repository
(`src/app/api/trading/chat/route.ts` and `src/app/api/chat/route.ts`):
the in-memory history store, the classifier fallback, the context
assembler, and the streaming transform.

Conventions of the embedding:
* the mutable module variable `inMemoryChatHistory` is passed and returned
  explicitly as a `List ChatMessage`;
* `generateId()` (`Math.random`-based) and `new Date().toISOString()` are
  environment inputs; they are modelled by a supply `Nat → String × String`
  indexed by how many messages have been stored so far, or passed directly
  as arguments;
* `JSON.parse` is a platform primitive, modelled by an abstract
  `parse : String → Option OllamaData` (`none` means the parse throws);
* network calls (`fetch`) are external collaborators, modelled as function
  parameters; the queries issued to the search backend are recorded
  explicitly so that "retrieval was (not) consulted" is statable. -/

/-- Message record stored in `inMemoryChatHistory` (route.ts lines 8-13).
The source restricts `role` to the strings "user" and "assistant"; there is
no "system" role in the store. -/
structure ChatMessage where
  id : String
  role : String
  content : String
  timestamp : String
deriving DecidableEq, Repr

/-- Embedding of `storeChatMessage` (route.ts 178-200): push the new message,
then, when the length exceeds 100, keep only the last 100 (`slice(-100)`).
The generated id and timestamp are the arguments `msgId` and `ts`. -/
def storeChatMessage (role content msgId ts : String)
    (history : List ChatMessage) : List ChatMessage :=
  let h := history ++ [⟨msgId, role, content, ts⟩]
  if h.length > 100 then h.drop (h.length - 100) else h

/-- Embedding of `fetchChatHistory` (route.ts 169-176): `slice(-50)`, the
last 50 messages (the whole list when it is shorter). -/
def fetchChatHistory (history : List ChatMessage) : List ChatMessage :=
  history.drop (history.length - 50)

/-- Iterated `storeChatMessage` over a list of `(role, content)` pairs,
threading the id/timestamp supply. -/
def appendAll (supply : Nat → String × String) :
    List (String × String) → Nat → List ChatMessage → List ChatMessage
  | [], _, h => h
  | (r, c) :: rest, n, h =>
      appendAll supply rest (n + 1)
        (storeChatMessage r c (supply n).1 (supply n).2 h)

/-- The same append sequence with no eviction: every appended message, in
append order. -/
def unboundedAll (supply : Nat → String × String) :
    List (String × String) → Nat → List ChatMessage
  | [], _ => []
  | (r, c) :: rest, n =>
      ⟨(supply n).1, r, c, (supply n).2⟩ :: unboundedAll supply rest (n + 1)

theorem unboundedAll_length (supply : Nat → String × String)
    (entries : List (String × String)) :
    ∀ n, (unboundedAll supply entries n).length = entries.length := by
  induction entries with
  | nil => intro n; rfl
  | cons e rest ih =>
      obtain ⟨r, c⟩ := e
      intro n
      simp [unboundedAll, ih (n + 1)]

theorem storeChatMessage_eq_drop (role content msgId ts : String)
    (h : List ChatMessage) :
    storeChatMessage role content msgId ts h =
      (h ++ [(⟨msgId, role, content, ts⟩ : ChatMessage)]).drop
        ((h.length + 1) - 100) := by
  simp only [storeChatMessage]
  split
  · next hc =>
      simp only [List.length_append, List.length_cons, List.length_nil]
  · next hc =>
      simp only [List.length_append, List.length_cons, List.length_nil] at hc
      have h0 : h.length + 1 - 100 = 0 := by omega
      rw [h0, List.drop_zero]

theorem appendAll_eq_drop (supply : Nat → String × String)
    (entries : List (String × String)) :
    ∀ (n : Nat) (h : List ChatMessage), h.length ≤ 100 →
      appendAll supply entries n h =
        (h ++ unboundedAll supply entries n).drop
          ((h.length + entries.length) - 100) := by
  induction entries with
  | nil =>
      intro n h hb
      simp only [appendAll, unboundedAll, List.append_nil, List.length_nil,
        Nat.add_zero]
      rw [show h.length - 100 = 0 by omega, List.drop_zero]
  | cons e rest ih =>
      obtain ⟨r, c⟩ := e
      intro n h hb
      rw [appendAll, storeChatMessage_eq_drop]
      have hlen :
          ((h ++ [(⟨(supply n).1, r, c, (supply n).2⟩ : ChatMessage)]).drop
            ((h.length + 1) - 100)).length ≤ 100 := by
        simp only [List.length_drop, List.length_append, List.length_cons,
          List.length_nil]
        omega
      rw [ih (n + 1) _ hlen]
      have hd1 : (h.length + 1) - 100 ≤
          (h ++ [(⟨(supply n).1, r, c, (supply n).2⟩ : ChatMessage)]).length := by
        simp only [List.length_append, List.length_cons, List.length_nil]
        omega
      rw [← List.drop_append_of_le_length hd1, List.drop_drop]
      have harr :
          (h ++ [(⟨(supply n).1, r, c, (supply n).2⟩ : ChatMessage)]) ++
              unboundedAll supply rest (n + 1) =
            h ++ unboundedAll supply ((r, c) :: rest) n := by
        rw [List.append_assoc]
        rfl
      rw [harr]
      congr 1
      simp only [List.length_drop, List.length_append, List.length_cons,
        List.length_nil]
      omega

/-- C4: History store FIFO bound. With N = 100 (the bound hard-coded in
`storeChatMessage`), for every sequence of appends starting from the empty
history, the resulting window has size `min (total appended) 100` (hence
always ≤ 100) and equals exactly the `min (total, 100)` most recently
appended messages in append order: it is the unbounded append sequence with
its oldest `total - 100` elements dropped. Quantifying over all `entries`
covers the state after every individual append, since every prefix of an
append sequence is itself an append sequence. -/
theorem c4_history_fifo_bound (supply : Nat → String × String)
    (entries : List (String × String)) :
    (appendAll supply entries 0 []).length = min entries.length 100 ∧
    appendAll supply entries 0 [] =
      (unboundedAll supply entries 0).drop (entries.length - 100) := by
  have hmain := appendAll_eq_drop supply entries 0 [] (by simp)
  simp only [List.nil_append, List.length_nil, Nat.zero_add] at hmain
  refine ⟨?_, hmain⟩
  rw [hmain, List.length_drop, unboundedAll_length]
  omega

/-- Embedding of the `GET` route handler (route.ts 348-355): it returns
`fetchChatHistory` of the current history and performs no mutation, so the
second component (the history after the request) is the input history
unchanged. -/
def GET (history : List ChatMessage) : List ChatMessage × List ChatMessage :=
  (fetchChatHistory history, history)

/-- C9: History read is a pure query. For every history state, the GET
handler leaves the stored history exactly as it was, and its response is a
suffix of the history of length `min (size) 50`: the at most 50 most recent
messages in chronological (append) order. A suffix of a given length is
unique, so these two facts fully determine the response. -/
theorem c9_history_read_pure (h : List ChatMessage) :
    (GET h).2 = h ∧
    (GET h).1.length = min h.length 50 ∧
    (GET h).1.IsSuffix h := by
  refine ⟨rfl, ?_, ?_⟩
  · simp only [GET, fetchChatHistory, List.length_drop]
    omega
  · exact List.drop_suffix _ _

/-- Response-shaping policy object of the analysis JSON
(route.ts 256-260). -/
structure ResponseStyle where
  includeHistoryRecap : Bool
  focusOnNewInfo : Bool
  connectPastToPresent : Bool
deriving DecidableEq, Repr

/-- Analysis object produced by `getContextualizedPrompt`
(route.ts 250-261): the intent record of the code, with `queryType` one of
"HISTORY_QUERY", "FOLLOW_UP", "NEW_TOPIC", "MIXED". -/
structure ContextAnalysis where
  queryType : String
  explanation : String
  searchQuery : String
  shouldSummarizeInResponse : Bool
  responseStyle : ResponseStyle
deriving DecidableEq, Repr

/-- Embedding of `getContextualizedPrompt` (route.ts 239-292). The model
call and the `JSON.parse` of its output are summarized by `modelResult`:
`Except.ok a` when the call succeeded and its output parsed as an analysis
object, `Except.error raw` (carrying the raw failing output) when the fetch
rejected, the response was not ok, or `JSON.parse` threw. The catch block
(lines 279-291) returns the deterministic default object. -/
def getContextualizedPrompt (userQuery : String)
    (modelResult : Except String ContextAnalysis) : ContextAnalysis :=
  match modelResult with
  | Except.ok a => a
  | Except.error _ =>
      { queryType := "NEW_TOPIC"
        explanation := "Default to new topic due to error"
        searchQuery := userQuery
        shouldSummarizeInResponse := false
        responseStyle :=
          { includeHistoryRecap := false
            focusOnNewInfo := true
            connectPastToPresent := false } }

/-- Normalized retrieval result (route.ts 21-29, 60-66). -/
structure SearchResult where
  title : String
  content : String
  url : String
  source : String
  kind : String
deriving DecidableEq, Repr

/-- JavaScript `a || b` on strings: `b` when `a` is the empty string
(falsy), else `a`. Used at route.ts 321 (`contextAnalysis.searchQuery ||
userQuery`). -/
def jsOr (a b : String) : String := if a = "" then b else a

/-- Template literal of route.ts 303-305: one history message rendered into
the context, with its 1-based index. The embedded whitespace (13 spaces
after each newline) is the literal indentation inside the template literal. -/
def previousMessageBlock (index : Nat) (msg : ChatMessage) : String :=
  "[Previous Message " ++ toString (index + 1) ++ "]\n             Role: " ++
    msg.role ++ "\n             Content: " ++ msg.content

/-- Template literal of route.ts 325-328: one search result rendered into
the context. Its citation index `index + 1` appears both in the block
header and in the `Link: [n]` marker. -/
def marketInfoBlock (index : Nat) (result : SearchResult) : String :=
  "[Market Info " ++ toString (index + 1) ++ "]\n             Title: " ++
    result.title ++ "\n             Content: " ++ result.content ++
    "\n             Link: [" ++ toString (index + 1) ++ "] " ++ result.url

/-- Route.ts 300-308: the joined history blocks (the empty string when the
fetched history is empty). -/
def historyContextOf (chatHistory : List ChatMessage) : String :=
  if chatHistory.length > 0 then
    String.intercalate ("\n\n")
      (chatHistory.enum.map fun p => previousMessageBlock p.1 p.2)
  else ""

/-- Route.ts 311-317: the history portion of the context, framed by query
type — "Chat History to Summarize" for HISTORY_QUERY, "Previous Context"
otherwise; empty when there is no history text. -/
def historyPart (contextAnalysis : ContextAnalysis)
    (history : List ChatMessage) : String :=
  let historyContext := historyContextOf (fetchChatHistory history)
  if historyContext ≠ "" then
    if contextAnalysis.queryType = "HISTORY_QUERY" then
      "Chat History to Summarize:\n" ++ historyContext ++ "\n\n"
    else
      "Previous Context:\n" ++ historyContext ++ "\n\n"
  else ""

/-- Route.ts 323-330: the search results mapped to market-info blocks with
their appearance-order indices. -/
def marketInfoBlocks (results : List SearchResult) : List String :=
  results.enum.map fun p => marketInfoBlock p.1 p.2

/-- Result of `buildContext`. The source returns `{context, analysis}`;
`searchCalls` additionally records, in order, the queries this call passed
to `searchBackend`, making the retrieval effect explicit. -/
structure BuildContextResult where
  context : String
  analysis : ContextAnalysis
  searchCalls : List String
deriving DecidableEq, Repr

/-- Embedding of `buildContext` (route.ts 294-345). The external search
backend is the parameter `search`; route.ts 320 guards the retrieval call
with `queryType` different from "HISTORY_QUERY", and route.ts 321 chooses the query
`contextAnalysis.searchQuery || userQuery`. The catch path (route.ts
339-344) is unreachable in this pure embedding. -/
def buildContext (contextAnalysis : ContextAnalysis) (userQuery : String)
    (history : List ChatMessage) (search : String → List SearchResult) :
    BuildContextResult :=
  let context := historyPart contextAnalysis history
  if contextAnalysis.queryType ≠ "HISTORY_QUERY" then
    let q := jsOr contextAnalysis.searchQuery userQuery
    let searchResults := search q
    let context :=
      if searchResults.length > 0 then
        context ++ "\nRelevant Market Information:\n" ++
          String.intercalate ("\n\n") (marketInfoBlocks searchResults)
      else context
    ⟨context, contextAnalysis, [q]⟩
  else
    ⟨context, contextAnalysis, []⟩

/-- C5: Classifier fallback. Whenever the classification call fails or its
output cannot be parsed (`Except.error`), `getContextualizedPrompt` returns
the default analysis with queryType "NEW_TOPIC", searchQuery the user
message verbatim, focusOnNewInfo true and the other two policy flags false;
the result is the same for every failing raw output; and `buildContext` on
that fallback issues exactly one retrieval call, whose query is the raw
user message. -/
theorem c5_classifier_fallback (userQuery e1 e2 : String)
    (history : List ChatMessage) (search : String → List SearchResult) :
    (getContextualizedPrompt userQuery (Except.error e1)).queryType =
      "NEW_TOPIC" ∧
    (getContextualizedPrompt userQuery (Except.error e1)).searchQuery =
      userQuery ∧
    (getContextualizedPrompt userQuery
      (Except.error e1)).responseStyle.focusOnNewInfo = true ∧
    (getContextualizedPrompt userQuery
      (Except.error e1)).responseStyle.includeHistoryRecap = false ∧
    (getContextualizedPrompt userQuery
      (Except.error e1)).responseStyle.connectPastToPresent = false ∧
    getContextualizedPrompt userQuery (Except.error e1) =
      getContextualizedPrompt userQuery (Except.error e2) ∧
    (buildContext (getContextualizedPrompt userQuery (Except.error e1))
      userQuery history search).searchCalls = [userQuery] := by
  refine ⟨rfl, rfl, rfl, rfl, rfl, rfl, ?_⟩
  simp only [getContextualizedPrompt, buildContext, jsOr]
  by_cases hq : userQuery = "" <;> simp [hq]

/-- C6: Context Assembler intent policy. When `queryType` is
"HISTORY_QUERY": no retrieval query is issued, the result does not depend
on the search backend at all, and the context is exactly the history
excerpt under the "Chat History to Summarize" framing (empty when the
window is empty) — zero documents. For every other intent: exactly one
retrieval query is issued, the retrieved documents are appended after the
history part, and the k-th rendered block is `marketInfoBlock k` of the
k-th document — `marketInfoBlock k` carries the citation index `k + 1` in
both its header and its link marker, so citation indices are sequential in
appearance order. -/
theorem c6_context_assembler_intent_policy (a : ContextAnalysis)
    (userQuery : String) (history : List ChatMessage)
    (search : String → List SearchResult) :
    (a.queryType = "HISTORY_QUERY" →
      (buildContext a userQuery history search).searchCalls = [] ∧
      (∀ search2, buildContext a userQuery history search2 =
        buildContext a userQuery history search) ∧
      (buildContext a userQuery history search).context =
        (if historyContextOf (fetchChatHistory history) = "" then ""
         else "Chat History to Summarize:\n" ++
           historyContextOf (fetchChatHistory history) ++ "\n\n")) ∧
    (a.queryType ≠ "HISTORY_QUERY" →
      (buildContext a userQuery history search).searchCalls =
        [jsOr a.searchQuery userQuery] ∧
      (buildContext a userQuery history search).context =
        (if 0 < (search (jsOr a.searchQuery userQuery)).length then
          historyPart a history ++ "\nRelevant Market Information:\n" ++
            String.intercalate ("\n\n")
              (marketInfoBlocks (search (jsOr a.searchQuery userQuery)))
        else historyPart a history) ∧
      (∀ k, (marketInfoBlocks (search (jsOr a.searchQuery userQuery)))[k]?
        = ((search (jsOr a.searchQuery userQuery))[k]?).map
            (marketInfoBlock k))) := by
  constructor
  · intro ha
    refine ⟨?_, ?_, ?_⟩
    · simp [buildContext, ha]
    · intro search2
      simp [buildContext, ha]
    · simp [buildContext, ha, historyPart, historyContextOf]
      split <;> simp_all
  · intro ha
    refine ⟨?_, ?_, ?_⟩
    · simp [buildContext, ha]
    · simp only [buildContext, if_pos ha]
    · intro k
      simp only [marketInfoBlocks, List.getElem?_map, List.getElem?_enum,
        Option.map_map]
      cases (search (jsOr a.searchQuery userQuery))[k]? <;> rfl

/-- Witness for C6 at concrete inputs: a HISTORY_QUERY analysis issues no
retrieval call; a NEW_TOPIC analysis issues exactly one, with its own
searchQuery. -/
def histQueryAnalysis : ContextAnalysis :=
  ⟨"HISTORY_QUERY", "", "", false, ⟨false, false, false⟩⟩

/-- Concrete NEW_TOPIC analysis used by witnesses. -/
def newTopicAnalysis : ContextAnalysis :=
  ⟨"NEW_TOPIC", "", "q2", false, ⟨false, true, false⟩⟩

/-- Search backend that always returns no results. -/
def noSearch : String → List SearchResult := fun _ => []

theorem c6_context_assembler_intent_policy_witness :
    (buildContext histQueryAnalysis ("hello") [] noSearch).searchCalls = [] ∧
    (buildContext newTopicAnalysis ("hello") [] noSearch).searchCalls =
      ["q2"] := by
  constructor
  · exact ((c6_context_assembler_intent_policy histQueryAnalysis ("hello") []
      noSearch).1 rfl).1
  · have h := ((c6_context_assembler_intent_policy newTopicAnalysis ("hello")
      [] noSearch).2 (by decide)).1
    have hq : jsOr newTopicAnalysis.searchQuery ("hello") = "q2" := by decide
    rw [hq] at h
    exact h

/-- Parsed shape of one streamed line as the transform reads it (route.ts
383-396): `content` is the optional `data.message?.content` field (`none`
when the envelope or the field is absent) and `done` is the truthiness of
`data.done`. -/
structure OllamaData where
  content : Option String
  done : Bool
deriving DecidableEq, Repr

/-- Caller-facing frame enqueued by the transform (route.ts 390-399 and
403-408): the delta content and the finish reason (`none` embeds the JSON
null). -/
structure OutFrame where
  content : String
  finish : Option String
deriving DecidableEq, Repr

/-- Frame built for one successfully parsed line (route.ts 390-397). -/
def lineFrame (d : OllamaData) : OutFrame :=
  ⟨d.content.getD (""), if d.done then some ("stop") else none⟩

/-- Frame enqueued by the catch block (route.ts 403-408). -/
def errorFrame : OutFrame := ⟨"", some ("error")⟩

/-- Truthiness of the guard `data.done && data.message?.content` (route.ts
386): store only when the line is done-flagged and carries a non-empty
content string. -/
def storeTrigger (d : OllamaData) : Bool :=
  d.done && d.content.getD ("") != ""

/-- The store guard lifted to the result of a parse; `false` for a line
that failed to parse. -/
def storeTriggerOpt : Option OllamaData → Bool
  | some d => storeTrigger d
  | none => false

/-- Loop of the trading-chat transform (route.ts 382-400) over the
non-blank lines of one chunk, together with its catch block (401-409):
lines are parsed left to right inside a single try; each parsed line may
store an assistant message (386-388, with the content of that line alone)
and always enqueues its frame; the first line on which `JSON.parse` throws
aborts the loop, and the catch enqueues the single error frame. Returns
the enqueued frames, the next index into the id/timestamp supply, and the
updated history. -/
def transformLines (parse : String → Option OllamaData)
    (supply : Nat → String × String) :
    List String → Nat → List ChatMessage →
      List OutFrame × Nat × List ChatMessage
  | [], n, h => ([], n, h)
  | line :: rest, n, h =>
      match parse line with
      | none => ([errorFrame], n, h)
      | some d =>
          let step :=
            if storeTrigger d then
              (n + 1, storeChatMessage ("assistant") (d.content.getD (""))
                (supply n).1 (supply n).2 h)
            else (n, h)
          let next := transformLines parse supply rest step.1 step.2
          (lineFrame d :: next.1, next.2)

/-- Structural model of the JavaScript `text.split` at the newline
character: split the character list at every newline, neighbouring
delimiters and ends yielding empty segments, exactly as `split` does. -/
def splitNewlines : List Char → List (List Char)
  | [] => [[]]
  | c :: rest =>
      match splitNewlines rest with
      | [] => [[c]]
      | g :: gs => if c = '\n' then [] :: g :: gs else (c :: g) :: gs

/-- Line split of route.ts 379-380: decode the chunk, split on newline,
keep the lines whose trim is truthy — that is, the lines containing at
least one non-whitespace character. -/
def chunkLines (chunk : String) : List String :=
  ((splitNewlines chunk.data).map (fun cs => String.mk cs)).filter
    fun line => line.data.any fun c => !c.isWhitespace

/-- One invocation of the transform callback on one incoming chunk. -/
def transformChunk (parse : String → Option OllamaData)
    (supply : Nat → String × String) (chunk : String) (n : Nat)
    (h : List ChatMessage) : List OutFrame × Nat × List ChatMessage :=
  transformLines parse supply (chunkLines chunk) n h

/-- Whole-stream run of the transform: chunks are processed in arrival
order and each invocation starts from the state the previous one left. The
transform installs no flush or close handler, so when the source closes
(with or without a done frame having been seen) nothing further runs. -/
def runStream (parse : String → Option OllamaData)
    (supply : Nat → String × String) :
    List String → Nat → List ChatMessage →
      List OutFrame × Nat × List ChatMessage
  | [], n, h => ([], n, h)
  | chunk :: rest, n, h =>
      let first := transformChunk parse supply chunk n h
      let next := runStream parse supply rest first.2.1 first.2.2
      (first.1 ++ next.1, next.2)

/-- Concrete streamed line carrying the delta "Hel", not done-flagged. -/
def lineHel : String :=
  "\x7b\"message\":\x7b\"content\":\"Hel\"\x7d,\"done\":false\x7d"

/-- Concrete done-flagged streamed line carrying the delta "lo". -/
def lineLoDone : String :=
  "\x7b\"message\":\x7b\"content\":\"lo\"\x7d,\"done\":true\x7d"

/-- Concrete streamed line carrying the delta "a". -/
def lineA : String :=
  "\x7b\"message\":\x7b\"content\":\"a\"\x7d,\"done\":false\x7d"

/-- Concrete streamed line carrying the delta "b". -/
def lineB : String :=
  "\x7b\"message\":\x7b\"content\":\"b\"\x7d,\"done\":false\x7d"

/-- Concrete line that is not valid JSON. -/
def badLine : String := "not json"

/-- Concrete stand-in for `JSON.parse` on the lines above: each of the
four well-formed lines parses to its data; anything else (in particular
`badLine`) throws, modelled as `none`. -/
def jsonStub : String → Option OllamaData := fun s =>
  if s = lineHel then some ⟨some ("Hel"), false⟩
  else if s = lineLoDone then some ⟨some ("lo"), true⟩
  else if s = lineA then some ⟨some ("a"), false⟩
  else if s = lineB then some ⟨some ("b"), false⟩
  else none

/-- Fixed id/timestamp supply used in the concrete runs. -/
def demoSupply : Nat → String × String :=
  fun n => (toString n, "2024-01-01T00:00:00.000Z")

theorem transformLines_state_of_no_trigger
    (parse : String → Option OllamaData) (supply : Nat → String × String) :
    ∀ (lines : List String) (n : Nat) (h : List ChatMessage),
      (∀ l ∈ lines, storeTriggerOpt (parse l) = false) →
      (transformLines parse supply lines n h).2 = (n, h) := by
  intro lines
  induction lines with
  | nil => intro n h _; rfl
  | cons l rest ih =>
      intro n h hall
      have hl := hall l (List.mem_cons_self l rest)
      cases hp : parse l with
      | none => simp [transformLines, hp]
      | some d =>
          have ht : storeTrigger d = false := by
            simpa [storeTriggerOpt, hp] using hl
          have ih2 := ih n h (fun x hx => hall x (List.mem_cons_of_mem _ hx))
          simp [transformLines, hp, ht, ih2]

theorem runStream_state_of_no_trigger
    (parse : String → Option OllamaData) (supply : Nat → String × String) :
    ∀ (chunks : List String) (n : Nat) (h : List ChatMessage),
      (∀ c ∈ chunks, ∀ l ∈ chunkLines c, storeTriggerOpt (parse l) = false) →
      (runStream parse supply chunks n h).2 = (n, h) := by
  intro chunks
  induction chunks with
  | nil => intro n h _; rfl
  | cons c rest ih =>
      intro n h hall
      have hc := transformLines_state_of_no_trigger parse supply
        (chunkLines c) n h (fun l hl => hall c (List.mem_cons_self _ _) l hl)
      have h1 : (transformChunk parse supply c n h).2.1 = n := by
        simp [transformChunk, hc]
      have h2 : (transformChunk parse supply c n h).2.2 = h := by
        simp [transformChunk, hc]
      have ih2 := ih n h
        (fun x hx l hl => hall x (List.mem_cons_of_mem _ hx) l hl)
      simp [runStream, h1, h2, ih2]

theorem transformLines_malformed
    (parse : String → Option OllamaData) (supply : Nat → String × String) :
    ∀ (pre : List String) (bad : String) (rest : List String) (n : Nat)
        (h : List ChatMessage),
      (∀ l ∈ pre, (parse l).isSome = true) → parse bad = none →
      transformLines parse supply (pre ++ bad :: rest) n h =
        ((transformLines parse supply pre n h).1 ++ [errorFrame],
          (transformLines parse supply pre n h).2) := by
  intro pre
  induction pre with
  | nil =>
      intro bad rest n h _ hbad
      simp [transformLines, hbad]
  | cons l pre ih =>
      intro bad rest n h hpre hbad
      obtain ⟨d, hd⟩ := Option.isSome_iff_exists.mp
        (hpre l (List.mem_cons_self l pre))
      have hpre2 : ∀ x ∈ pre, (parse x).isSome = true :=
        fun x hx => hpre x (List.mem_cons_of_mem _ hx)
      simp only [List.cons_append, transformLines, hd, List.append_eq]
      rw [ih bad rest _ _ hpre2 hbad]

theorem transformLines_finish_of_valid
    (parse : String → Option OllamaData) (supply : Nat → String × String) :
    ∀ (lines : List String) (n : Nat) (h : List ChatMessage),
      (∀ l ∈ lines, (parse l).isSome = true) →
      ∀ f ∈ (transformLines parse supply lines n h).1,
        f.finish = none ∨ f.finish = some ("stop") := by
  intro lines
  induction lines with
  | nil =>
      intro n h _ f hf
      simp [transformLines] at hf
  | cons l rest ih =>
      intro n h hall f hf
      obtain ⟨d, hd⟩ := Option.isSome_iff_exists.mp
        (hall l (List.mem_cons_self l rest))
      simp only [transformLines, hd] at hf
      rcases List.mem_cons.mp hf with h1 | h2
      · subst h1
        by_cases hdone : d.done <;> simp [lineFrame, hdone]
      · exact ih _ _ (fun x hx => hall x (List.mem_cons_of_mem _ hx)) f h2

/-- C1: the round-trip property fails on the code, and the failure is a
slip against the transforms own stated intent ("Store assistants message
in history when complete", route.ts 385): the transform keeps no
accumulator, and on the done-flagged line it persists that lines own
`message.content` only. For the completed stream with deltas "Hel" then
"lo" (done), the emitted deltas concatenate to "Hello" while the persisted
assistant message content is "lo". (With a real completion backend, whose
done frame carries an empty content, nothing would be persisted at all,
since the guard at route.ts 386 also requires non-empty content.) -/
theorem c1_roundtrip_code_bug :
    String.join (((runStream jsonStub demoSupply [lineHel, lineLoDone] 0
      []).1).map OutFrame.content) = "Hello" ∧
    ((runStream jsonStub demoSupply [lineHel, lineLoDone] 0 []).2.2).map
      ChatMessage.content = [("lo" : String)] ∧
    ("Hello" : String) ≠ "lo" := by
  refine ⟨by decide, by decide, by decide⟩

/-- C2 counterexample: one frame whose decoded text splits into three
lines — a valid line with delta "a", a malformed line, then a valid line
with delta "b". The claim says the malformed line is skipped and the "b"
line is still processed; the single try/catch around the whole line loop
(route.ts 378-409) instead aborts the frame at the malformed line: the
emitted frames are exactly the "a" delta followed by the error frame, and
no "b" delta is ever emitted. -/
theorem c2_counterexample :
    (transformChunk jsonStub demoSupply
      (lineA ++ "\n" ++ badLine ++ "\n" ++ lineB) 0 []).1 =
      [⟨"a", none⟩, ⟨"", some ("error")⟩] := by decide

/-- C2 amended: per-frame line processing is sequential, not independent.
The valid lines before the first malformed line are fully processed (their
frames emitted, their stores applied); the first malformed line aborts the
frame, one error frame is enqueued after the frames already emitted, the
state is the state after the valid prefix, and every line after the
malformed one is ignored, valid or not. -/
theorem c2_line_isolation_amended (parse : String → Option OllamaData)
    (supply : Nat → String × String) (pre : List String) (bad : String)
    (rest : List String) (n : Nat) (h : List ChatMessage)
    (hpre : ∀ l ∈ pre, (parse l).isSome = true) (hbad : parse bad = none) :
    transformLines parse supply (pre ++ bad :: rest) n h =
      ((transformLines parse supply pre n h).1 ++ [errorFrame],
        (transformLines parse supply pre n h).2) :=
  transformLines_malformed parse supply pre bad rest n h hpre hbad

theorem c2_line_isolation_amended_witness :
    transformLines jsonStub demoSupply ([lineA] ++ badLine :: [lineB]) 0 []
      = ((transformLines jsonStub demoSupply [lineA] 0 []).1 ++
          [errorFrame],
         (transformLines jsonStub demoSupply [lineA] 0 []).2) :=
  c2_line_isolation_amended jsonStub demoSupply [lineA] badLine [lineB] 0 []
    (by decide) (by decide)

/-- C3 counterexample: a stream that delivers the single delta "Hel" with
no done flag and then closes. The claim says the history then contains the
partial message "Hel" plus a system notice; the transform has no close or
flush handling and stores only on done-flagged lines, so the history after
the stream is exactly the history before it — starting empty, it stays
empty: no partial message, no system notice, no ERRORED persistence. -/
theorem c3_counterexample :
    (runStream jsonStub demoSupply [lineHel] 0 []).2.2 =
      ([] : List ChatMessage) := by decide

/-- C3 amended: on premature close or transport failure nothing is
persisted. Any stream none of whose parsed lines is done-flagged with
non-empty content — in particular one cut before any done frame — leaves
the history store exactly unchanged (and consumes no ids); the only error
handling is the error frame enqueued to the caller by the catch block. -/
theorem c3_no_persist_on_premature_close
    (parse : String → Option OllamaData) (supply : Nat → String × String)
    (chunks : List String) (n : Nat) (h : List ChatMessage)
    (hnd : ∀ c ∈ chunks, ∀ l ∈ chunkLines c,
      storeTriggerOpt (parse l) = false) :
    (runStream parse supply chunks n h).2.2 = h ∧
    (runStream parse supply chunks n h).2.1 = n := by
  have hs := runStream_state_of_no_trigger parse supply chunks n h hnd
  exact ⟨by rw [hs], by rw [hs]⟩

theorem c3_no_persist_on_premature_close_witness :
    (runStream jsonStub demoSupply [lineHel] 0
      [(⟨"u1", "user", "hi", "t1"⟩ : ChatMessage)]).2.2 =
      [(⟨"u1", "user", "hi", "t1"⟩ : ChatMessage)] :=
  (c3_no_persist_on_premature_close jsonStub demoSupply [lineHel] 0
    [(⟨"u1", "user", "hi", "t1"⟩ : ChatMessage)] (by decide)).1

/-- C10 counterexample: a frame whose first line is valid (delta "a") and
whose second line is malformed. The claim says the transform enqueues
exactly one frame for such a failing frame and no other output; the code
first enqueues the frame for the valid line, then the catch enqueues the
error frame — two frames for this one input frame. -/
theorem c10_counterexample :
    ((transformChunk jsonStub demoSupply (lineA ++ "\n" ++ badLine) 0
      []).1).length = 2 := by decide

/-- C10 amended: when a line of a frame fails to parse, the transform
enqueues exactly one error frame with empty content and finish reason
"error" — after (not instead of) the frames already enqueued for the valid
lines preceding the failure; and the success path emits only null or
"stop" finish reasons, so "error" can still serve as a terminator value
that no successful path produces. -/
theorem c10_error_frame_terminator (parse : String → Option OllamaData)
    (supply : Nat → String × String) :
    (∀ (pre : List String) (bad : String) (rest : List String) (n : Nat)
        (h : List ChatMessage),
      (∀ l ∈ pre, (parse l).isSome = true) → parse bad = none →
      (transformLines parse supply (pre ++ bad :: rest) n h).1 =
        (transformLines parse supply pre n h).1 ++
          [(⟨"", some ("error")⟩ : OutFrame)]) ∧
    (∀ (lines : List String) (n : Nat) (h : List ChatMessage),
      (∀ l ∈ lines, (parse l).isSome = true) →
      ∀ f ∈ (transformLines parse supply lines n h).1,
        f.finish = none ∨ f.finish = some ("stop")) := by
  constructor
  · intro pre bad rest n h h1 h2
    rw [transformLines_malformed parse supply pre bad rest n h h1 h2]
    rfl
  · exact transformLines_finish_of_valid parse supply

theorem c10_error_frame_terminator_witness :
    (transformLines jsonStub demoSupply ([lineA] ++ badLine :: []) 0
      []).1 =
      (transformLines jsonStub demoSupply [lineA] 0 []).1 ++
        [(⟨"", some ("error")⟩ : OutFrame)] :=
  (c10_error_frame_terminator jsonStub demoSupply).1 [lineA] badLine [] 0 []
    (by decide) (by decide)

/-- Request body fields the POST handler reads (route.ts 359-367); `none`
models an absent field. -/
structure PostRequest where
  type : Option String
  message : Option String
deriving DecidableEq, Repr

/-- What the POST handler goes on to do: either the clear-history early
return (route.ts 362-365) or the full pipeline (store user message,
classifier, context build, completion stream; route.ts 367-432) run with
the given user query. -/
inductive PostAction where
  | clearResponse
  | pipeline (userQuery : String)
deriving DecidableEq, Repr

/-- Embedding of the state-and-dispatch prefix of the POST handler
(route.ts 357-370): a request with `type` equal to "clear_history" resets
the history to the empty list and returns (the "Chat history cleared" text
goes into the HTTP response, not into the history); any other request
takes `body.message ||` the empty string as the user query — an absent
`message` field is not rejected — stores the user message, and proceeds to
the pipeline. `msgId` and `ts` are the generated id and timestamp of the
stored user message. -/
def POST (body : PostRequest) (msgId ts : String)
    (history : List ChatMessage) : PostAction × List ChatMessage :=
  if body.type = some ("clear_history") then
    (PostAction.clearResponse, [])
  else
    let userQuery := match body.message with
      | some m => jsOr m ("")
      | none => ""
    (PostAction.pipeline userQuery,
      storeChatMessage ("user") userQuery msgId ts history)

/-- C7 counterexample: clearing a one-message history. The claim says that
after every clear the history is not empty but contains exactly one system
notice; the code resets the history to the empty list and appends nothing,
so the history after the clear has zero messages (and the store has no
system role at all). -/
theorem c7_counterexample :
    (POST ⟨some ("clear_history"), none⟩ "id0" "t0"
      [(⟨"m1", "user", "hi", "t"⟩ : ChatMessage)]).2 = [] := by decide

/-- C7 amended: the history-clear operation empties the conversation
window and appends nothing: after every clear the history is exactly
empty; in particular it contains no system notice. -/
theorem c7_clear_empties (msg : Option String) (msgId ts : String)
    (history : List ChatMessage) :
    POST ⟨some ("clear_history"), msg⟩ msgId ts history =
      (PostAction.clearResponse, []) := by
  simp [POST]

/-- C8 counterexample: a request with no `message` field (and no `type`
field). The claim says it is rejected immediately, no pipeline stage runs
and the history stays unchanged; the code instead defaults the user query
to the empty string, appends a user message with empty content to the
(here empty) history, and proceeds to the pipeline. -/
theorem c8_counterexample :
    POST ⟨none, none⟩ "id0" "t0" [] =
      (PostAction.pipeline (""),
        [(⟨"id0", "user", "", "t0"⟩ : ChatMessage)]) := by decide

/-- C8 amended: a chat request missing the `message` field is not
rejected and triggers no validation: the handler defaults the user query
to the empty string, appends a user message with empty content to the
history, and runs the pipeline stages with that empty query. -/
theorem c8_missing_message_proceeds (t : Option String)
    (msgId ts : String) (history : List ChatMessage)
    (hne : t ≠ some ("clear_history")) :
    POST ⟨t, none⟩ msgId ts history =
      (PostAction.pipeline (""),
        storeChatMessage ("user") "" msgId ts history) := by
  simp [POST, hne]

theorem c8_missing_message_proceeds_witness :
    POST ⟨none, none⟩ "w1" "w2" [] =
      (PostAction.pipeline (""),
        storeChatMessage ("user") "" "w1" "w2" []) :=
  c8_missing_message_proceeds none ("w1") ("w2") [] (by decide)
